import Mathlib

/-!
Verification development for the stable-file watcher
(src/internal/fs/stable_file_watcher.go).

The Go file implements a directory watcher that emits a `FileEvent` for a
file once it has stopped changing for a configured quiet period:

* `NewStableFileWatcher` builds the watcher: it creates a fsnotify watcher,
  lists the pre-existing directory entries (`readFiles`), registers the
  directory with the fsnotify watcher, and spawns the `start` goroutine.
* `start` spawns one `waitUntilFileIsStable` tracker per pre-existing
  non-directory entry, then loops selecting on the `done` channel and the
  directory-level fsnotify event stream, spawning a tracker per create-type
  notification; on `done` it closes the `Events` channel and returns.
* `waitUntilFileIsStable` acquires a path-scoped fsnotify watcher, arms a
  timer for `StableThreshold`, and loops selecting on `done`, the path's
  notification stream and the timer; notifications re-arm the timer
  (stop, drain pending fire, reset) and a timer fire checks `os.Stat` and
  emits at most one `FileEvent` before returning.
* `Close` calls `dirWatcher.Close()` and then `close(w.done)`.

The shallow embedding below models each goroutine as a function of the
sequence of messages it receives (with timestamps where the claims are
timed), the Go timer as an explicit (active, pending-fires) state, channels
as open/closed states, and the fallible external calls (fsnotify
construction, `Add`, `ReadDir`, `os.Stat`) as explicit `Except`/`Bool`
inputs.  One claim about cross-goroutine interleavings is settled with a
small-step relation whose nondeterminism mirrors Go's `select` over
simultaneously ready channels.
-/

namespace StableFileWatcherSpec

/-! ### fsnotify operations

fsnotify's `Op` is a bitmask with `Create = 1`, `Write = 2`, `Remove = 4`,
`Rename = 8`, `Chmod = 16`.  `start` tests `fileEvent.Op & fsnotify.Create
== fsnotify.Create`. -/

def fsnotifyCreate : Nat := 1

def fsnotifyWrite : Nat := 2

def fsnotifyRemove : Nat := 4

def fsnotifyRename : Nat := 8

def fsnotifyChmod : Nat := 16

/-- The create-bit test `fileEvent.Op&fsnotify.Create == fsnotify.Create`
from `start`. -/
def hasCreate (op : Nat) : Bool :=
  Nat.land op fsnotifyCreate == fsnotifyCreate

/-- `os.FileInfo` as consumed by `readFiles`: only `Name()` and `IsDir()`
are used. -/
structure FileInfo where
  name : String
  isDir : Bool
deriving DecidableEq, Repr

/-- `filepath.Join(w.watchDir, file.Name())` for a directory entry name
(no separators or dot segments in a `ReadDir` entry name, so the join is a
plain separator-concatenation). -/
def filepathJoin (dir name : String) : String :=
  dir ++ "/" ++ name

/-- `errors.Wrapf(err, msg)` from github.com/pkg/errors: the wrapped error's
message is `msg ++ ": " ++ err.Error()`. -/
def wrapf (cause msg : String) : String :=
  msg ++ ": " ++ cause

/-- The non-directory filter applied by `readFiles` to the `ReadDir`
listing. -/
def nonDirFiles (items : List FileInfo) : List FileInfo :=
  items.filter (fun item => !item.isDir)

/-- `readFiles`: lists the watch directory (the fallible `ioutil.ReadDir`
call is the explicit `readDirRes` input), wrapping a listing error with
"unable to list <dir>", and keeps the non-directory entries. -/
def readFiles (watchDir : String) (readDirRes : Except String (List FileInfo)) :
    Except String (List FileInfo) :=
  match readDirRes with
  | .error e => .error (wrapf e ("unable to list " ++ watchDir))
  | .ok items => .ok (nonDirFiles items)

/-- The `StableFileWatcher` configuration fields set by the constructor
(the `done` and `Events` channels are modelled separately as runtime
state). -/
structure StableFileWatcher where
  watchDir : String
  StableThreshold : Nat
deriving DecidableEq, Repr

/-- `NewStableFileWatcher`: the three fallible construction steps
(`fsnotify.NewWatcher`, `ioutil.ReadDir` inside `readFiles`,
`dirWatcher.Add`) are explicit inputs; the result carries the constructed
watcher together with the pre-existing non-directory entries handed to the
`start` goroutine. -/
def NewStableFileWatcher (watchDir : String) (stableThreshold : Nat)
    (newWatcherRes : Except String Unit)
    (readDirRes : Except String (List FileInfo))
    (addRes : Except String Unit) :
    Except String (StableFileWatcher × List FileInfo) :=
  match newWatcherRes with
  | .error e => .error (wrapf e "unable to create a file system watcher")
  | .ok _ =>
    match readFiles watchDir readDirRes with
    | .error e => .error e
    | .ok existingFiles =>
      match addRes with
      | .error e => .error (wrapf e ("unable to start watching " ++ watchDir))
      | .ok _ => .ok (⟨watchDir, stableThreshold⟩, existingFiles)

/-- Whether an `Except` result is an error. -/
def isErr {α : Type} (r : Except String α) : Bool :=
  match r with
  | .error _ => true
  | .ok _ => false

/-! ### The directory-level loop (`start`)

`start` first spawns one tracker per pre-existing file, then loops:
`select { case <-w.done: close(w.Events); return
          case fileEvent := <-w.dirWatcher.Events: if Op&Create { go tracker } }`.
It is modelled as a function of the sequence of messages the `select`
receives, returning the spawned paths in order together with the number of
`close(w.Events)` calls performed. -/

/-- A message received by `start`'s `select`: either the `done` channel has
fired, or a directory-level fsnotify event `(Name, Op)` arrived. -/
inductive DirMsg where
  | done
  | fileEvent (name : String) (op : Nat)
deriving DecidableEq, Repr

/-- The `start` main loop over its received messages: a create-type event
spawns a tracker for the event's `Name`; `done` closes `Events` and
returns (messages after `done` are never received). -/
def start : List DirMsg → List String × Nat
  | [] => ([], 0)
  | .done :: _ => ([], 1)
  | .fileEvent name op :: rest =>
    let r := start rest
    (if hasCreate op then name :: r.1 else r.1, r.2)

/-- The paths `start` spawns trackers for before entering its loop: one per
pre-existing (already non-directory-filtered) entry, at
`filepath.Join(w.watchDir, file.Name())`. -/
def startExistingPaths (watchDir : String) (existingFiles : List FileInfo) :
    List String :=
  existingFiles.map (fun file => filepathJoin watchDir file.name)

/-- The complete behaviour of the `start` goroutine: tracker paths spawned
(pre-existing first, then loop-spawned), and the number of `close(Events)`
calls. -/
def startAll (watchDir : String) (existingFiles : List FileInfo)
    (msgs : List DirMsg) : List String × Nat :=
  ((startExistingPaths watchDir existingFiles) ++ (start msgs).1, (start msgs).2)

/-- Names spawned by a directory message: `some name` exactly for a
create-type `fileEvent`. -/
def createName : DirMsg → Option String
  | .done => none
  | .fileEvent name op => if hasCreate op then some name else none

/-! ### The per-file tracker (`waitUntilFileIsStable`)

The tracker is modelled twice, at the two granularities the claims need.

Timed trace model: the tracker's observable behaviour is a function of the
timestamped messages its `select` receives (`done` fired, or a path-scoped
notification), of the timer arm time, and of the `os.Stat` outcome at each
instant.  The timer fires at `armTime + threshold` unless a message is
received strictly earlier; a notification re-arms it at the notification's
time.  When the fire and a message are simultaneously ready the model
resolves the `select` in favour of the fire (one fixed resolution of Go's
nondeterministic choice; the interleaving-sensitive claim is settled
separately with the nondeterministic small-step model below). -/

/-- A message received by the tracker's `select` other than the timer:
the `done` channel fired, or a path-scoped fsnotify notification with its
operation bits (the code re-arms on any operation). -/
inductive TrackerMsg where
  | cancel
  | notify (op : Nat)
deriving DecidableEq, Repr

/-- The tracker loop over its timestamped messages, given the arm time of
the timer.  `statOk t` is whether `os.Stat(path)` succeeds at instant `t`.
Returns the timestamps of the `FileEvent`s sent on `w.Events`. -/
def trackerLoop (threshold : Nat) (statOk : Nat → Bool) :
    List (Nat × TrackerMsg) → Nat → List Nat
  | [], armTime =>
    if statOk (armTime + threshold) then [armTime + threshold] else []
  | (t, msg) :: rest, armTime =>
    if armTime + threshold ≤ t then
      if statOk (armTime + threshold) then [armTime + threshold] else []
    else
      match msg with
      | .cancel => []
      | .notify _ => trackerLoop threshold statOk rest t

/-- `waitUntilFileIsStable`: the two fallible subscription steps
(`fsnotify.NewWatcher()` and `fw.Add(path)`) are explicit inputs; on
either failure the tracker logs and returns without emitting.  Otherwise
it arms the timer at `startTime` and runs the loop. -/
def waitUntilFileIsStable (threshold : Nat)
    (newWatcherRes addRes : Except String Unit) (statOk : Nat → Bool)
    (msgs : List (Nat × TrackerMsg)) (startTime : Nat) : List Nat :=
  match newWatcherRes with
  | .error _ => []
  | .ok _ =>
    match addRes with
    | .error _ => []
    | .ok _ => trackerLoop threshold statOk msgs startTime

/-- The per-path environment of one tracker invocation: its fallible
subscription steps, its `os.Stat` behaviour, its received messages and its
start time. -/
structure TrackerEnv where
  newWatcherRes : Except String Unit
  addRes : Except String Unit
  statOk : Nat → Bool
  msgs : List (Nat × TrackerMsg)
  startTime : Nat

/-- One tracker invocation under an environment. -/
def runTracker (threshold : Nat) (env : TrackerEnv) : List Nat :=
  waitUntilFileIsStable threshold env.newWatcherRes env.addRes env.statOk
    env.msgs env.startTime

/-- All emissions of the system: every path spawned by the `start`
goroutine (pre-existing and loop-spawned alike) is handed to the same
tracker `waitUntilFileIsStable`, each under its own per-path
environment.  An emission is tagged with its path. -/
def systemEmissions (threshold : Nat) (watchDir : String)
    (existingFiles : List FileInfo) (msgs : List DirMsg)
    (envOf : String → TrackerEnv) : List (String × Nat) :=
  (startAll watchDir existingFiles msgs).1.flatMap
    (fun p => (runTracker threshold (envOf p)).map (fun t => (p, t)))

/-! ### The Go timer (`time.Timer`) and the re-arm discipline

`time.NewTimer` gives a timer with a one-slot buffered channel `C`.  The
state is (`active`: a fire is scheduled, `pending`: fires sitting unread
in `C`).  Expiry moves a scheduled fire into `C`; `Stop` reports whether
the timer was still scheduled and descheduled it; `Reset` reschedules;
`<-timer.C` takes a pending fire and blocks (modelled as `none`) when
there is none.  The tracker's notification branch is
`if !timer.Stop() { <-timer.C }; timer.Reset(threshold)`. -/

structure TimerState where
  active : Bool
  pending : Nat
deriving DecidableEq, Repr

/-- `timer.Stop()`: returns whether a fire was still scheduled, and
deschedules it; pending fires already in `C` are untouched. -/
def timerStop (tm : TimerState) : Bool × TimerState :=
  (tm.active, { tm with active := false })

/-- `<-timer.C`: takes one pending fire; blocks (`none`) if `C` is
empty. -/
def timerDrain (tm : TimerState) : Option TimerState :=
  if tm.pending = 0 then none else some { tm with pending := tm.pending - 1 }

/-- `timer.Reset(threshold)`: reschedules the fire.  `Reset` does not
touch `C`; that is why the code drains before resetting. -/
def timerReset (tm : TimerState) : TimerState :=
  { tm with active := true }

/-- The runtime expires a scheduled timer: the fire is delivered into
`C`.  Only a scheduled (`active`) timer can expire. -/
def timerExpire (tm : TimerState) : Option TimerState :=
  if tm.active then some { active := false, pending := tm.pending + 1 } else none

/-- The tracker's notification branch, exactly as written:
`if !timer.Stop() { <-timer.C }; timer.Reset(w.StableThreshold)`. -/
def rearm (tm : TimerState) : Option TimerState :=
  let s := timerStop tm
  if s.1 then some (timerReset s.2)
  else (timerDrain s.2).map timerReset

/-- Timer-relevant occurrences while the tracker's loop is running: the
runtime expires the timer, or the `select` takes the notification branch
(a `<-timer.C` receive ends the loop, so it ends a run rather than
occurring inside one). -/
inductive TimerEvt where
  | expire
  | notified
deriving DecidableEq, Repr

def timerStep (tm : TimerState) : TimerEvt → Option TimerState
  | .expire => timerExpire tm
  | .notified => rearm tm

/-- A run of the tracker loop's timer from a given state; `none` when a
step is impossible (a non-scheduled timer expiring) or would block (a
drain of an empty `C`). -/
def timerRun : TimerState → List TimerEvt → Option TimerState
  | tm, [] => some tm
  | tm, e :: es =>
    match timerStep tm e with
    | some tm2 => timerRun tm2 es
    | none => none

/-- `time.NewTimer(w.StableThreshold)`: scheduled, nothing pending. -/
def timerInit : TimerState := ⟨true, 0⟩

/-! ### The `done` and `Events` channels, and `Close` -/

/-- A Go channel's open/closed state. -/
inductive ChanState where
  | opened
  | closed
deriving DecidableEq, Repr

/-- `close(ch)`: closing an already-closed channel faults (a Go runtime
panic), modelled as `none`. -/
def closeChan : ChanState → Option ChanState
  | .opened => some .closed
  | .closed => none

/-- Reading the cancellation signal: `<-w.done` is ready exactly when the
channel has been closed (nothing is ever sent on `done`); the read does
not change the channel's state, so observing the fired signal is
idempotent. -/
def doneFired (c : ChanState) : Bool :=
  c == .closed

/-- The watcher's runtime channel state as `Close` sees it. -/
structure WatcherRuntime where
  dirWatcherClosed : Bool
  done : ChanState
deriving DecidableEq, Repr

/-- `Close`: `w.dirWatcher.Close(); close(w.done)`.  The second statement
faults when `done` is already closed, so a faulting `Close` is `none`. -/
def Close (w : WatcherRuntime) : Option WatcherRuntime :=
  match closeChan w.done with
  | some d => some { dirWatcherClosed := true, done := d }
  | none => none

/-! ### Interleaving model for cancellation

Go's `select` with several ready communications chooses among them by
uniform pseudo-random selection; in particular, after `close(w.done)` a
tracker whose `<-timer.C` is simultaneously ready may take either branch,
and `start` with a directory event already delivered may take either
branch.  The small-step relation below captures exactly the interleavings
of one tracker, the `start` loop and one `Close` call that the Go code
admits; it is the model on which the cancellation claim is settled. -/

/-- A joint state of the system: the `done` channel, one tracker (its
timer and liveness), the `start` loop (its liveness and a pending,
not-yet-received create-type directory event), the `Events` channel, the
events emitted on `Events`, and how many trackers the loop has spawned. -/
structure SysState where
  doneClosed : Bool
  timerArmed : Bool
  timerPending : Bool
  trackerAlive : Bool
  loopAlive : Bool
  createPending : Bool
  eventsClosed : Bool
  emitted : List String
  spawnCount : Nat
deriving DecidableEq, Repr

/-- One scheduler step of the system, for a tracker on `path` whose
`os.Stat` succeeds.  Each constructor is one of the atomic actions the Go
code can perform; its premises are exactly the readiness conditions of the
corresponding communication (reading a closed channel is always ready, so
`doneClosed` never disables another ready branch). -/
inductive SysStep (path : String) : SysState → SysState → Prop where
  | closeWatcher (s : SysState) :
      s.doneClosed = false →
      SysStep path s { s with doneClosed := true }
  | timerExpires (s : SysState) :
      s.timerArmed = true → s.trackerAlive = true →
      SysStep path s { s with timerArmed := false, timerPending := true }
  | trackerSelectTimer (s : SysState) :
      s.trackerAlive = true → s.timerPending = true → s.eventsClosed = false →
      SysStep path s { s with timerPending := false, trackerAlive := false,
                              emitted := s.emitted ++ [path] }
  | trackerSelectDone (s : SysState) :
      s.trackerAlive = true → s.doneClosed = true →
      SysStep path s { s with trackerAlive := false }
  | loopSelectCreate (s : SysState) :
      s.loopAlive = true → s.createPending = true →
      SysStep path s { s with createPending := false,
                              spawnCount := s.spawnCount + 1 }
  | loopSelectDone (s : SysState) :
      s.loopAlive = true → s.doneClosed = true → s.eventsClosed = false →
      SysStep path s { s with loopAlive := false, eventsClosed := true }

/-! ### The unread `Errors` channels

Both fsnotify watchers also expose an `Errors` channel; neither `select`
in the Go file has a case for it.  The full models below take input
sequences in which error deliveries may appear anywhere; since no `select`
case can receive them they are never consumed, and the loops' observable
outputs coincide with the outputs on the error-free projection of the
input. -/

/-- Input stream of `start` including deliveries on
`w.dirWatcher.Errors`. -/
inductive DirInput where
  | done
  | fileEvent (name : String) (op : Nat)
  | errMsg (e : String)
deriving DecidableEq, Repr

/-- Drop the error deliveries, keeping the messages `start`'s `select`
listens for. -/
def projectDir : List DirInput → List DirMsg
  | [] => []
  | .done :: rest => .done :: projectDir rest
  | .fileEvent name op :: rest => .fileEvent name op :: projectDir rest
  | .errMsg _ :: rest => projectDir rest

/-- The error deliveries of an input stream. -/
def dirErrors : List DirInput → List String
  | [] => []
  | .errMsg e :: rest => e :: dirErrors rest
  | .done :: rest => dirErrors rest
  | .fileEvent _ _ :: rest => dirErrors rest

/-- `start` over the full input stream: spawned names, `close(Events)`
count, and the error deliveries left unconsumed.  An `errMsg` matches no
`select` case, so the loop does not receive it and it stays on the
`Errors` channel. -/
def startFull : List DirInput → List String × Nat × List String
  | [] => ([], 0, [])
  | .done :: rest => ([], 1, dirErrors rest)
  | .fileEvent name op :: rest =>
    let r := startFull rest
    (if hasCreate op then name :: r.1 else r.1, r.2.1, r.2.2)
  | .errMsg e :: rest =>
    let r := startFull rest
    (r.1, r.2.1, e :: r.2.2)

/-- Input stream of a tracker including deliveries on `fw.Errors`. -/
inductive TrackerInput where
  | cancel
  | notify (op : Nat)
  | errMsg (e : String)
deriving DecidableEq, Repr

/-- Drop the error deliveries, keeping the timestamped messages the
tracker's `select` listens for. -/
def projectTracker : List (Nat × TrackerInput) → List (Nat × TrackerMsg)
  | [] => []
  | (t, .cancel) :: rest => (t, .cancel) :: projectTracker rest
  | (t, .notify op) :: rest => (t, .notify op) :: projectTracker rest
  | (_, .errMsg _) :: rest => projectTracker rest

/-- The tracker loop over the full input stream: an `errMsg` matches no
`select` case, so it is never received and leaves the arm time
unchanged. -/
def trackerLoopFull (threshold : Nat) (statOk : Nat → Bool) :
    List (Nat × TrackerInput) → Nat → List Nat
  | [], armTime =>
    if statOk (armTime + threshold) then [armTime + threshold] else []
  | (_, .errMsg _) :: rest, armTime => trackerLoopFull threshold statOk rest armTime
  | (t, .cancel) :: _, armTime =>
    if armTime + threshold ≤ t then
      if statOk (armTime + threshold) then [armTime + threshold] else []
    else []
  | (t, .notify _) :: rest, armTime =>
    if armTime + threshold ≤ t then
      if statOk (armTime + threshold) then [armTime + threshold] else []
    else trackerLoopFull threshold statOk rest t

/-! ### Helper lemmas about the tracker loop -/

theorem trackerLoop_nil (threshold : Nat) (statOk : Nat → Bool) (armTime : Nat) :
    trackerLoop threshold statOk [] armTime =
      if statOk (armTime + threshold) then [armTime + threshold] else [] := rfl

theorem trackerLoop_cons (threshold : Nat) (statOk : Nat → Bool) (t : Nat)
    (msg : TrackerMsg) (rest : List (Nat × TrackerMsg)) (armTime : Nat) :
    trackerLoop threshold statOk ((t, msg) :: rest) armTime =
      if armTime + threshold ≤ t then
        if statOk (armTime + threshold) then [armTime + threshold] else []
      else
        match msg with
        | .cancel => []
        | .notify _ => trackerLoop threshold statOk rest t := rfl

/-- Any tracker-loop run sends at most one event. -/
theorem trackerLoop_length_le_one (threshold : Nat) (statOk : Nat → Bool) :
    ∀ (msgs : List (Nat × TrackerMsg)) (armTime : Nat),
      (trackerLoop threshold statOk msgs armTime).length ≤ 1
  | [], armTime => by
    rw [trackerLoop_nil]
    split <;> simp
  | (t, msg) :: rest, armTime => by
    rw [trackerLoop_cons]
    split
    · split <;> simp
    · cases msg with
      | cancel => simp
      | notify op => exact trackerLoop_length_le_one threshold statOk rest t

/-- Every emission happens at an instant where `os.Stat` succeeds. -/
theorem statOk_of_mem_trackerLoop (threshold : Nat) (statOk : Nat → Bool) :
    ∀ (msgs : List (Nat × TrackerMsg)) (armTime T : Nat),
      T ∈ trackerLoop threshold statOk msgs armTime → statOk T = true
  | [], armTime, T, h => by
    rw [trackerLoop_nil] at h
    split at h
    · next hs => rw [List.mem_singleton] at h; exact h ▸ hs
    · exact absurd h (List.not_mem_nil T)
  | (t, msg) :: rest, armTime, T, h => by
    rw [trackerLoop_cons] at h
    split at h
    · split at h
      · next hs => rw [List.mem_singleton] at h; exact h ▸ hs
      · exact absurd h (List.not_mem_nil T)
    · cases msg with
      | cancel => exact absurd h (List.not_mem_nil T)
      | notify op => exact statOk_of_mem_trackerLoop threshold statOk rest t T h

/-- When `os.Stat` never succeeds, nothing is ever emitted. -/
theorem trackerLoop_eq_nil_of_statOk_false (threshold : Nat) (statOk : Nat → Bool)
    (msgs : List (Nat × TrackerMsg)) (armTime : Nat)
    (hfalse : ∀ u, statOk u = false) :
    trackerLoop threshold statOk msgs armTime = [] := by
  cases hres : trackerLoop threshold statOk msgs armTime with
  | nil => rfl
  | cons x xs =>
    have hx : statOk x = true :=
      statOk_of_mem_trackerLoop threshold statOk msgs armTime x
        (hres ▸ List.mem_cons_self x xs)
    rw [hfalse x] at hx
    exact absurd hx (by simp)

/-- With nondecreasing message timestamps starting at the arm time, every
emission happens no earlier than one full threshold after the arm time. -/
theorem le_of_mem_trackerLoop (threshold : Nat) (statOk : Nat → Bool) :
    ∀ (msgs : List (Nat × TrackerMsg)) (armTime T : Nat),
      List.Chain (fun a b => a ≤ b) armTime (msgs.map Prod.fst) →
      T ∈ trackerLoop threshold statOk msgs armTime → armTime + threshold ≤ T
  | [], armTime, T, _, h => by
    rw [trackerLoop_nil] at h
    split at h
    · rw [List.mem_singleton] at h; exact h ▸ Nat.le_refl _
    · exact absurd h (List.not_mem_nil T)
  | (t, msg) :: rest, armTime, T, hch, h => by
    rw [List.map_cons, List.chain_cons] at hch
    rw [trackerLoop_cons] at h
    split at h
    · split at h
      · rw [List.mem_singleton] at h; exact h ▸ Nat.le_refl _
      · exact absurd h (List.not_mem_nil T)
    · cases msg with
      | cancel => exact absurd h (List.not_mem_nil T)
      | notify op =>
        have hrec := le_of_mem_trackerLoop threshold statOk rest t T hch.2 h
        exact Nat.le_trans (Nat.add_le_add_right hch.1 threshold) hrec

/-- C1: when the timer fires after a full uninterrupted quiet period the
tracker checks existence directly: with `os.Stat` succeeding it emits
exactly one event at the fire instant and terminates; with `os.Stat`
failing it terminates without emitting; every emission happens at an
instant where the file exists, so a file deleted before its timer fires
(so that `os.Stat` fails from then on) never produces an event. -/
theorem C1_timer_fire_existence_check (threshold armTime t : Nat)
    (statOk : Nat → Bool) (msg : TrackerMsg)
    (rest msgs : List (Nat × TrackerMsg)) (hfire : armTime + threshold ≤ t) :
    (trackerLoop threshold statOk [] armTime =
       if statOk (armTime + threshold) then [armTime + threshold] else []) ∧
    (trackerLoop threshold statOk ((t, msg) :: rest) armTime =
       if statOk (armTime + threshold) then [armTime + threshold] else []) ∧
    (∀ T ∈ trackerLoop threshold statOk msgs armTime, statOk T = true) ∧
    ((∀ u, statOk u = false) →
       trackerLoop threshold statOk msgs armTime = []) := by
  refine ⟨rfl, ?_, ?_, ?_⟩
  · rw [trackerLoop_cons, if_pos hfire]
  · exact fun T hT => statOk_of_mem_trackerLoop threshold statOk msgs armTime T hT
  · exact fun hfalse =>
      trackerLoop_eq_nil_of_statOk_false threshold statOk msgs armTime hfalse

theorem C1_witness :
    trackerLoop 5 (fun u => u == 5) [] 0 =
      (if ((0 + 5 : Nat) == 5) then [0 + 5] else []) ∧
    trackerLoop 5 (fun u => u == 5) [(7, TrackerMsg.notify 2)] 0 =
      (if ((0 + 5 : Nat) == 5) then [0 + 5] else []) ∧
    (∀ T ∈ trackerLoop 5 (fun u => u == 5) [(2, TrackerMsg.notify 2)] 0,
       (T == 5) = true) ∧
    ((∀ u : Nat, (u == 5) = false) →
       trackerLoop 5 (fun u => u == 5) [(2, TrackerMsg.notify 2)] 0 = []) :=
  C1_timer_fire_existence_check 5 0 7 (fun u => u == 5) (TrackerMsg.notify 2)
    [] [(2, TrackerMsg.notify 2)] (by decide)

/-- C2: each tracker invocation emits at most one event, whatever its
environment; a tracker that receives no notification and no cancellation
(an empty message sequence) emits exactly one event for its path, at
exactly one threshold after its start; and with nondecreasing message
timestamps no emission ever happens earlier than one threshold after the
start. -/
theorem C2_at_most_one_event (threshold startTime : Nat) (statOk : Nat → Bool)
    (msgs : List (Nat × TrackerMsg))
    (hch : List.Chain (fun a b => a ≤ b) startTime (msgs.map Prod.fst))
    (hstat : statOk (startTime + threshold) = true) :
    (∀ (newWatcherRes addRes : Except String Unit)
       (ms : List (Nat × TrackerMsg)) (a : Nat),
       (waitUntilFileIsStable threshold newWatcherRes addRes statOk ms a).length ≤ 1) ∧
    (waitUntilFileIsStable threshold (.ok ()) (.ok ()) statOk [] startTime =
       [startTime + threshold]) ∧
    (∀ T ∈ trackerLoop threshold statOk msgs startTime,
       startTime + threshold ≤ T) := by
  refine ⟨?_, ?_, ?_⟩
  · intro newWatcherRes addRes ms a
    cases newWatcherRes with
    | error e => simp [waitUntilFileIsStable]
    | ok u =>
      cases addRes with
      | error e => simp [waitUntilFileIsStable]
      | ok v => exact trackerLoop_length_le_one threshold statOk ms a
  · show trackerLoop threshold statOk [] startTime = [startTime + threshold]
    rw [trackerLoop_nil, if_pos hstat]
  · exact fun T hT => le_of_mem_trackerLoop threshold statOk msgs startTime T hch hT

theorem C2_witness :
    (∀ (newWatcherRes addRes : Except String Unit)
       (ms : List (Nat × TrackerMsg)) (a : Nat),
       (waitUntilFileIsStable 5 newWatcherRes addRes (fun _ => true) ms a).length ≤ 1) ∧
    (waitUntilFileIsStable 5 (.ok ()) (.ok ()) (fun _ => true) [] 3 = [3 + 5]) ∧
    (∀ T ∈ trackerLoop 5 (fun _ => true) [(4, TrackerMsg.notify 2)] 3, 3 + 5 ≤ T) :=
  C2_at_most_one_event 5 3 (fun _ => true) [(4, TrackerMsg.notify 2)]
    (by simp) (by decide)

/-! ### The timer invariant -/

/-- States of the tracker's timer reachable while its loop runs: either
armed with an empty `C`, or expired with exactly the one fire in `C`. -/
theorem timerRun_invariant :
    ∀ (evts : List TimerEvt) (tm tm2 : TimerState),
      (tm = ⟨true, 0⟩ ∨ tm = ⟨false, 1⟩) → timerRun tm evts = some tm2 →
      tm2 = ⟨true, 0⟩ ∨ tm2 = ⟨false, 1⟩
  | [], tm, tm2, hinv, h => by
    simp only [timerRun] at h
    cases h
    exact hinv
  | e :: es, tm, tm2, hinv, h => by
    rcases hinv with h1 | h1 <;> subst h1 <;> cases e
    · exact timerRun_invariant es ⟨false, 1⟩ tm2 (Or.inr rfl) h
    · exact timerRun_invariant es ⟨true, 0⟩ tm2 (Or.inl rfl) h
    · exact absurd h (by simp [timerRun, timerStep, timerExpire])
    · exact timerRun_invariant es ⟨true, 0⟩ tm2 (Or.inl rfl) h

/-- C4: in every reachable state of a running tracker's timer, at most one
fire is pending in `timer.C` (and an armed timer has none pending), and
the notification branch — `if !timer.Stop() { <-timer.C };
timer.Reset(threshold)`, the stop-drain-reset discipline embodied by
`rearm` — never blocks and always yields a freshly armed timer with an
empty `C`: a notification received strictly before the fire is consumed
resets the timer. -/
theorem C4_timer_rearm_discipline (evts : List TimerEvt) (tm : TimerState)
    (h : timerRun timerInit evts = some tm) :
    tm.pending ≤ 1 ∧ (tm.active = true → tm.pending = 0) ∧
    rearm tm = some ⟨true, 0⟩ := by
  have hinv := timerRun_invariant evts timerInit tm (Or.inl rfl) h
  rcases hinv with h1 | h1 <;> subst h1
  · exact ⟨by decide, fun _ => rfl, rfl⟩
  · exact ⟨by decide, fun hx => absurd hx (by decide), rfl⟩

theorem C4_witness :
    (⟨false, 1⟩ : TimerState).pending ≤ 1 ∧
    ((⟨false, 1⟩ : TimerState).active = true →
       (⟨false, 1⟩ : TimerState).pending = 0) ∧
    rearm ⟨false, 1⟩ = some ⟨true, 0⟩ :=
  C4_timer_rearm_discipline [TimerEvt.notified, TimerEvt.expire] ⟨false, 1⟩
    (by decide)

/-! ### Close -/

/-- C9 as stated is false: `Close` is `w.dirWatcher.Close(); close(w.done)`,
and `close` of an already-closed channel faults, so invoking `Close` twice
does not have the same effect as invoking it once — the first invocation
returns normally, the second faults. -/
theorem C9_counterexample :
    Close ⟨false, .opened⟩ = some ⟨true, .closed⟩ ∧
    (Close ⟨false, .opened⟩).bind Close = none :=
  ⟨rfl, rfl⟩

/-- C9 amended: a successful `Close` releases the directory-level
subscription and fires the cancellation signal; the fired signal is
permanent and observing it is idempotent (`<-w.done` is a pure read of the
closed channel); but `Close` itself is not idempotent — a second
invocation closes an already-closed channel and faults. -/
theorem C9_close_one_shot (w w2 : WatcherRuntime) (h : Close w = some w2) :
    w2.done = .closed ∧ w2.dirWatcherClosed = true ∧
    doneFired w2.done = true ∧ Close w2 = none := by
  cases hw : w.done with
  | closed => simp [Close, closeChan, hw] at h
  | opened =>
    simp [Close, closeChan, hw] at h
    subst h
    exact ⟨rfl, rfl, rfl, rfl⟩

theorem C9_witness :
    (⟨true, .closed⟩ : WatcherRuntime).done = .closed ∧
    (⟨true, .closed⟩ : WatcherRuntime).dirWatcherClosed = true ∧
    doneFired (⟨true, .closed⟩ : WatcherRuntime).done = true ∧
    Close ⟨true, .closed⟩ = none :=
  C9_close_one_shot ⟨false, .opened⟩ ⟨true, .closed⟩ (by decide)

/-! ### Helper lemmas about the `start` loop -/

/-- Before any `done` arrives, the loop spawns exactly the create-type
names and performs no close. -/
theorem start_no_done :
    ∀ (msgs : List DirMsg), DirMsg.done ∉ msgs →
      start msgs = (msgs.filterMap createName, 0)
  | [], _ => rfl
  | .done :: rest, h => absurd (List.mem_cons_self _ _) h
  | .fileEvent name op :: rest, h => by
    have hrec := start_no_done rest (fun hm => h (List.mem_cons_of_mem _ hm))
    cases hop : hasCreate op <;>
      simp [start, hrec, List.filterMap_cons, createName, hop]

/-- With `done` arriving after the `done`-free prefix `pre`, the loop
spawns exactly the create-type names of `pre`, closes `Events` exactly
once, and never receives the suffix. -/
theorem start_append_done :
    ∀ (pre post : List DirMsg), DirMsg.done ∉ pre →
      start (pre ++ DirMsg.done :: post) = (pre.filterMap createName, 1)
  | [], post, _ => rfl
  | .done :: rest, post, hpre => absurd (List.mem_cons_self _ _) hpre
  | .fileEvent name op :: rest, post, hpre => by
    have hrec :=
      start_append_done rest post (fun hm => hpre (List.mem_cons_of_mem _ hm))
    cases hop : hasCreate op <;>
      simp [start, hrec, List.filterMap_cons, createName, hop]

/-- C3 as stated is false.  `close(w.done)` makes the `<-w.done` case of
every `select` ready, but Go's `select` chooses uniformly among all ready
cases: a tracker whose timer fire is already pending may take the timer
branch after `done` has fired and emit, and the loop may take the event
branch for an already-delivered create notification after `done` has
fired and spawn.  The run below exhibits both: the timer expires, `Close`
fires `done`, then the tracker emits and the loop spawns. -/
theorem C3_counterexample :
    SysStep "a.mp4"
        ⟨false, true, false, true, true, true, false, [], 0⟩
        ⟨false, false, true, true, true, true, false, [], 0⟩ ∧
    SysStep "a.mp4"
        ⟨false, false, true, true, true, true, false, [], 0⟩
        ⟨true, false, true, true, true, true, false, [], 0⟩ ∧
    SysStep "a.mp4"
        ⟨true, false, true, true, true, true, false, [], 0⟩
        ⟨true, false, false, false, true, true, false, ["a.mp4"], 0⟩ ∧
    SysStep "a.mp4"
        ⟨true, false, false, false, true, true, false, ["a.mp4"], 0⟩
        ⟨true, false, false, false, true, false, false, ["a.mp4"], 1⟩ ∧
    (⟨true, false, true, true, true, true, false, [], 0⟩ : SysState).doneClosed
        = true ∧
    (⟨true, false, true, true, true, true, false, [], 0⟩ : SysState).emitted
        = [] ∧
    (⟨true, false, true, true, true, true, false, [], 0⟩ : SysState).spawnCount
        = 0 ∧
    (⟨true, false, false, false, true, true, false, ["a.mp4"], 0⟩ :
        SysState).emitted = ["a.mp4"] ∧
    (⟨true, false, false, false, true, false, false, ["a.mp4"], 1⟩ :
        SysState).spawnCount = 1 := by
  refine ⟨?_, ?_, ?_, ?_, rfl, rfl, rfl, rfl, rfl⟩
  · exact SysStep.timerExpires _ rfl rfl
  · exact SysStep.closeWatcher _ rfl
  · exact SysStep.trackerSelectTimer _ rfl rfl rfl
  · exact SysStep.loopSelectCreate _ rfl rfl

/-- C3 amended: the cancellation guarantees hold at observation rather
than at the instant `done` fires.  Once the directory loop observes
cancellation it spawns no further trackers, it never receives the
remaining directory events, and it closes `Events` exactly once; a tracker
that observes cancellation before its timer fires emits nothing; and the
`Events` channel is only ever closed by the directory loop when it
observes cancellation, never by a tracker.  Between the instant `done`
fires and the instant each goroutine observes it, a tracker whose timer
fire is already pending may still emit one event, and the loop may still
spawn for an already-delivered create notification (select
nondeterminism). -/
theorem C3_cancellation_on_observation (pre post : List DirMsg)
    (threshold armTime t : Nat) (statOk : Nat → Bool)
    (rest : List (Nat × TrackerMsg)) (path : String)
    (hpre : DirMsg.done ∉ pre) (ht : t < armTime + threshold) :
    start (pre ++ DirMsg.done :: post) = (pre.filterMap createName, 1) ∧
    trackerLoop threshold statOk ((t, TrackerMsg.cancel) :: rest) armTime = [] ∧
    (∀ (s s2 : SysState), SysStep path s s2 → s.eventsClosed = false →
       s2.eventsClosed = true →
       s.doneClosed = true ∧ s.loopAlive = true ∧ s2.loopAlive = false) := by
  refine ⟨start_append_done pre post hpre, ?_, ?_⟩
  · rw [trackerLoop_cons, if_neg (Nat.not_le.mpr ht)]
  · intro s s2 hstep h1 h2
    cases hstep <;> simp_all

theorem C3_witness :
    start ([DirMsg.fileEvent "a.mp4" 1] ++
        DirMsg.done :: [DirMsg.fileEvent "b.mp4" 1]) =
      ([DirMsg.fileEvent "a.mp4" 1].filterMap createName, 1) ∧
    trackerLoop 5 (fun _ => true) [(2, TrackerMsg.cancel)] 0 = [] ∧
    (∀ (s s2 : SysState), SysStep "a.mp4" s s2 → s.eventsClosed = false →
       s2.eventsClosed = true →
       s.doneClosed = true ∧ s.loopAlive = true ∧ s2.loopAlive = false) :=
  C3_cancellation_on_observation [DirMsg.fileEvent "a.mp4" 1]
    [DirMsg.fileEvent "b.mp4" 1] 5 0 2 (fun _ => true) [] "a.mp4"
    (by decide) (by decide)

/-- C5: before cancellation the loop spawns exactly the names of its
create-type notifications, in order, and performs no close; in
particular a single notification spawns its name when its operation has
the create bit and spawns nothing otherwise. -/
theorem C5_create_iff_spawn (msgs : List DirMsg) (h : DirMsg.done ∉ msgs) :
    (start msgs).1 = msgs.filterMap createName ∧ (start msgs).2 = 0 ∧
    (∀ (name : String) (op : Nat),
       (start [DirMsg.fileEvent name op]).1 =
         if hasCreate op then [name] else []) := by
  refine ⟨?_, ?_, ?_⟩
  · rw [start_no_done msgs h]
  · rw [start_no_done msgs h]
  · intro name op
    cases hop : hasCreate op <;> simp [start, hop]

theorem C5_witness :
    (start [DirMsg.fileEvent "a.mp4" 1, DirMsg.fileEvent "b.mp4" 2,
        DirMsg.fileEvent "c.mp4" 4, DirMsg.fileEvent "d.mp4" 8]).1 =
      [DirMsg.fileEvent "a.mp4" 1, DirMsg.fileEvent "b.mp4" 2,
        DirMsg.fileEvent "c.mp4" 4,
        DirMsg.fileEvent "d.mp4" 8].filterMap createName ∧
    (start [DirMsg.fileEvent "a.mp4" 1, DirMsg.fileEvent "b.mp4" 2,
        DirMsg.fileEvent "c.mp4" 4, DirMsg.fileEvent "d.mp4" 8]).2 = 0 ∧
    (∀ (name : String) (op : Nat),
       (start [DirMsg.fileEvent name op]).1 =
         if hasCreate op then [name] else []) :=
  C5_create_iff_spawn [DirMsg.fileEvent "a.mp4" 1, DirMsg.fileEvent "b.mp4" 2,
    DirMsg.fileEvent "c.mp4" 4, DirMsg.fileEvent "d.mp4" 8] (by decide)

/-- C6: at startup the `start` goroutine spawns one tracker per
pre-existing non-directory entry, at the join of the watch directory with
the entry's name, before any loop-spawned tracker; with the (unique)
`ReadDir` entry names, each non-directory entry contributes exactly one
spawn and directory entries contribute none; and every spawned path —
pre-existing or created later — is handed to the same tracker
`runTracker`, so pre-existing files pass the same quiet-period test. -/
theorem C6_preexisting_tracked (watchDir : String) (items : List FileInfo)
    (msgs : List DirMsg) (envOf : String → TrackerEnv) (threshold : Nat)
    (hnodup : (items.map FileInfo.name).Nodup) :
    readFiles watchDir (.ok items) = .ok (nonDirFiles items) ∧
    (startAll watchDir (nonDirFiles items) msgs).1 =
      (nonDirFiles items).map (fun f => filepathJoin watchDir f.name) ++
        (start msgs).1 ∧
    (∀ item ∈ items, item.isDir = false → (nonDirFiles items).count item = 1) ∧
    (∀ item ∈ items, item.isDir = true → item ∉ nonDirFiles items) ∧
    systemEmissions threshold watchDir (nonDirFiles items) msgs envOf =
      ((startExistingPaths watchDir (nonDirFiles items)).flatMap
         (fun p => (runTracker threshold (envOf p)).map (fun t => (p, t)))) ++
      ((start msgs).1.flatMap
         (fun p => (runTracker threshold (envOf p)).map (fun t => (p, t)))) := by
  have hitems : items.Nodup := List.Nodup.of_map FileInfo.name hnodup
  refine ⟨rfl, rfl, ?_, ?_, ?_⟩
  · intro item hmem hdir
    have hin : item ∈ nonDirFiles items :=
      List.mem_filter.mpr ⟨hmem, by simp [hdir]⟩
    exact List.count_eq_one_of_mem (List.Nodup.filter _ hitems) hin
  · intro item hmem hdir hin
    have := (List.mem_filter.mp hin).2
    simp [hdir] at this
  · show ((startExistingPaths watchDir (nonDirFiles items)) ++
        (start msgs).1).flatMap _ = _
    rw [List.flatMap_append]

theorem C6_witness :
    readFiles "/watch" (.ok [⟨"a.mp4", false⟩, ⟨"sub", true⟩, ⟨"b.mp4", false⟩])
      = .ok (nonDirFiles [⟨"a.mp4", false⟩, ⟨"sub", true⟩, ⟨"b.mp4", false⟩]) ∧
    (startAll "/watch"
        (nonDirFiles [⟨"a.mp4", false⟩, ⟨"sub", true⟩, ⟨"b.mp4", false⟩]) []).1 =
      (nonDirFiles [⟨"a.mp4", false⟩, ⟨"sub", true⟩, ⟨"b.mp4", false⟩]).map
          (fun f => filepathJoin "/watch" f.name) ++ (start []).1 ∧
    (∀ item ∈ [(⟨"a.mp4", false⟩ : FileInfo), ⟨"sub", true⟩, ⟨"b.mp4", false⟩],
       item.isDir = false →
       (nonDirFiles [⟨"a.mp4", false⟩, ⟨"sub", true⟩, ⟨"b.mp4", false⟩]).count
           item = 1) ∧
    (∀ item ∈ [(⟨"a.mp4", false⟩ : FileInfo), ⟨"sub", true⟩, ⟨"b.mp4", false⟩],
       item.isDir = true →
       item ∉ nonDirFiles [⟨"a.mp4", false⟩, ⟨"sub", true⟩, ⟨"b.mp4", false⟩]) ∧
    systemEmissions 5 "/watch"
        (nonDirFiles [⟨"a.mp4", false⟩, ⟨"sub", true⟩, ⟨"b.mp4", false⟩]) []
        (fun _ => ⟨.ok (), .ok (), fun _ => true, [], 0⟩) =
      ((startExistingPaths "/watch"
          (nonDirFiles [⟨"a.mp4", false⟩, ⟨"sub", true⟩, ⟨"b.mp4", false⟩])).flatMap
         (fun p => (runTracker 5
             (⟨.ok (), .ok (), fun _ => true, [], 0⟩ : TrackerEnv)).map
           (fun t => (p, t)))) ++
      ((start []).1.flatMap
         (fun p => (runTracker 5
             (⟨.ok (), .ok (), fun _ => true, [], 0⟩ : TrackerEnv)).map
           (fun t => (p, t)))) := by
  have h := C6_preexisting_tracked "/watch"
    [⟨"a.mp4", false⟩, ⟨"sub", true⟩, ⟨"b.mp4", false⟩] []
    (fun _ => ⟨.ok (), .ok (), fun _ => true, [], 0⟩) 5 (by decide)
  exact h

/-- C7: the constructor fails exactly when one of its three steps fails —
creating the fsnotify watcher, listing the directory, registering the
directory — each failure surfacing as the corresponding wrapped error (no
watcher is returned); when all three succeed it returns the watcher with
the given directory and threshold, together with the non-directory
entries, and no error. -/
theorem C7_constructor (watchDir : String) (stableThreshold : Nat)
    (newWatcherRes addRes : Except String Unit)
    (readDirRes : Except String (List FileInfo))
    (e1 e2 e3 : String) (items : List FileInfo) :
    isErr (NewStableFileWatcher watchDir stableThreshold newWatcherRes
        readDirRes addRes) =
      (isErr newWatcherRes || isErr readDirRes || isErr addRes) ∧
    (newWatcherRes = .error e1 →
       NewStableFileWatcher watchDir stableThreshold newWatcherRes readDirRes
           addRes =
         .error (wrapf e1 "unable to create a file system watcher")) ∧
    (newWatcherRes = .ok () → readDirRes = .error e2 →
       NewStableFileWatcher watchDir stableThreshold newWatcherRes readDirRes
           addRes =
         .error (wrapf e2 ("unable to list " ++ watchDir))) ∧
    (newWatcherRes = .ok () → readDirRes = .ok items → addRes = .error e3 →
       NewStableFileWatcher watchDir stableThreshold newWatcherRes readDirRes
           addRes =
         .error (wrapf e3 ("unable to start watching " ++ watchDir))) ∧
    (newWatcherRes = .ok () → readDirRes = .ok items → addRes = .ok () →
       NewStableFileWatcher watchDir stableThreshold newWatcherRes readDirRes
           addRes =
         .ok (⟨watchDir, stableThreshold⟩, nonDirFiles items)) := by
  refine ⟨?_, ?_, ?_, ?_, ?_⟩
  · rcases newWatcherRes with e | u
    · rfl
    · rcases readDirRes with e | l
      · rfl
      · rcases addRes with e | v
        · rfl
        · rfl
  · intro h1
    subst h1
    rfl
  · intro h1 h2
    subst h1
    subst h2
    rfl
  · intro h1 h2 h3
    subst h1
    subst h2
    subst h3
    rfl
  · intro h1 h2 h3
    subst h1
    subst h2
    subst h3
    rfl

theorem C7_witness :
    isErr (NewStableFileWatcher "/watch" 5 (.ok ())
        (.ok [(⟨"a.mp4", false⟩ : FileInfo)]) (.error "boom")) =
      (isErr (.ok () : Except String Unit) ||
       isErr (.ok [(⟨"a.mp4", false⟩ : FileInfo)] :
          Except String (List FileInfo)) ||
       isErr (.error "boom" : Except String Unit)) ∧
    ((.ok () : Except String Unit) = .error "x" →
       NewStableFileWatcher "/watch" 5 (.ok ())
           (.ok [(⟨"a.mp4", false⟩ : FileInfo)]) (.error "boom") =
         .error (wrapf "x" "unable to create a file system watcher")) ∧
    ((.ok () : Except String Unit) = .ok () →
       (.ok [(⟨"a.mp4", false⟩ : FileInfo)] :
          Except String (List FileInfo)) = .error "y" →
       NewStableFileWatcher "/watch" 5 (.ok ())
           (.ok [(⟨"a.mp4", false⟩ : FileInfo)]) (.error "boom") =
         .error (wrapf "y" ("unable to list " ++ "/watch"))) ∧
    ((.ok () : Except String Unit) = .ok () →
       (.ok [(⟨"a.mp4", false⟩ : FileInfo)] :
          Except String (List FileInfo)) = .ok [⟨"a.mp4", false⟩] →
       (.error "boom" : Except String Unit) = .error "boom" →
       NewStableFileWatcher "/watch" 5 (.ok ())
           (.ok [(⟨"a.mp4", false⟩ : FileInfo)]) (.error "boom") =
         .error (wrapf "boom" ("unable to start watching " ++ "/watch"))) ∧
    ((.ok () : Except String Unit) = .ok () →
       (.ok [(⟨"a.mp4", false⟩ : FileInfo)] :
          Except String (List FileInfo)) = .ok [⟨"a.mp4", false⟩] →
       (.error "boom" : Except String Unit) = .ok () →
       NewStableFileWatcher "/watch" 5 (.ok ())
           (.ok [(⟨"a.mp4", false⟩ : FileInfo)]) (.error "boom") =
         .ok (⟨"/watch", 5⟩, nonDirFiles [⟨"a.mp4", false⟩])) :=
  C7_constructor "/watch" 5 (.ok ()) (.error "boom")
    (.ok [⟨"a.mp4", false⟩]) "x" "y" "boom" [⟨"a.mp4", false⟩]

/-- Emissions of trackers on paths other than `q` do not depend on `q`'s
environment. -/
theorem flatMap_filter_congr (threshold : Nat) (q : String)
    (envOf envOf2 : String → TrackerEnv)
    (hagree : ∀ p, p ≠ q → envOf p = envOf2 p) :
    ∀ (paths : List String),
      ((paths.flatMap
          (fun p => (runTracker threshold (envOf p)).map (fun t => (p, t)))).filter
        (fun pr => pr.1 != q)) =
      ((paths.flatMap
          (fun p => (runTracker threshold (envOf2 p)).map (fun t => (p, t)))).filter
        (fun pr => pr.1 != q))
  | [] => rfl
  | p :: rest => by
    have hrec := flatMap_filter_congr threshold q envOf envOf2 hagree rest
    rw [List.flatMap_cons, List.flatMap_cons, List.filter_append,
      List.filter_append, hrec]
    by_cases hp : p = q
    · subst hp
      have h1 : ∀ (l : List Nat),
          ((l.map (fun t => (p, t))).filter (fun pr => pr.1 != p)) = [] := by
        intro l
        rw [List.filter_map]
        simp [Function.comp]
      rw [h1, h1]
    · rw [hagree p hp]

/-- C8: per-file failures are local: a tracker whose path-scoped watcher
creation or subscription (`Add`) fails, or whose file has vanished
(`os.Stat` always failing) when its quiet period elapses, emits nothing;
replacing one path's environment (by a failing one or any other) leaves
the system's emissions on every other path unchanged; and the directory
loop's spawns and single close are a function of the directory messages
alone, untouched by any tracker's environment. -/
theorem C8_per_file_failure_local (threshold : Nat) (watchDir : String)
    (existingFiles : List FileInfo) (msgs : List DirMsg) (q : String)
    (envOf envOf2 : String → TrackerEnv) (env : TrackerEnv) (e : String)
    (hagree : ∀ p, p ≠ q → envOf p = envOf2 p) :
    (env.newWatcherRes = .error e → runTracker threshold env = []) ∧
    (env.addRes = .error e → runTracker threshold env = []) ∧
    ((∀ u, env.statOk u = false) → runTracker threshold env = []) ∧
    ((systemEmissions threshold watchDir existingFiles msgs envOf).filter
        (fun pr => pr.1 != q) =
      (systemEmissions threshold watchDir existingFiles msgs envOf2).filter
        (fun pr => pr.1 != q)) ∧
    (startAll watchDir existingFiles msgs).2 = (start msgs).2 := by
  refine ⟨?_, ?_, ?_, ?_, rfl⟩
  · intro h
    simp [runTracker, waitUntilFileIsStable, h]
  · intro h
    cases hnw : env.newWatcherRes <;>
      simp [runTracker, waitUntilFileIsStable, h, hnw]
  · intro h
    cases hnw : env.newWatcherRes with
    | error e2 => simp [runTracker, waitUntilFileIsStable, hnw]
    | ok u =>
      cases had : env.addRes with
      | error e2 => simp [runTracker, waitUntilFileIsStable, hnw, had]
      | ok v =>
        simp [runTracker, waitUntilFileIsStable, hnw, had]
        exact trackerLoop_eq_nil_of_statOk_false threshold env.statOk env.msgs
          env.startTime h
  · exact flatMap_filter_congr threshold q envOf envOf2 hagree _

theorem C8_witness :
    ((⟨.error "gone", .ok (), fun _ => true, [], 0⟩ : TrackerEnv).newWatcherRes
        = .error "gone" → runTracker 5 ⟨.error "gone", .ok (), fun _ => true, [], 0⟩ = []) ∧
    ((⟨.error "gone", .ok (), fun _ => true, [], 0⟩ : TrackerEnv).addRes
        = .error "gone" → runTracker 5 ⟨.error "gone", .ok (), fun _ => true, [], 0⟩ = []) ∧
    ((∀ u, (⟨.error "gone", .ok (), fun _ => true, [], 0⟩ : TrackerEnv).statOk u
        = false) → runTracker 5 ⟨.error "gone", .ok (), fun _ => true, [], 0⟩ = []) ∧
    ((systemEmissions 5 "/watch" [⟨"a.mp4", false⟩] [DirMsg.fileEvent "q.mp4" 1]
        (fun _ => ⟨.ok (), .ok (), fun _ => true, [], 0⟩)).filter
        (fun pr => pr.1 != "/watch/q.mp4") =
      (systemEmissions 5 "/watch" [⟨"a.mp4", false⟩] [DirMsg.fileEvent "q.mp4" 1]
        (fun p => if p = "/watch/q.mp4" then ⟨.error "gone", .ok (), fun _ => true, [], 0⟩
          else ⟨.ok (), .ok (), fun _ => true, [], 0⟩)).filter
        (fun pr => pr.1 != "/watch/q.mp4")) ∧
    (startAll "/watch" [⟨"a.mp4", false⟩] [DirMsg.fileEvent "q.mp4" 1]).2 =
      (start [DirMsg.fileEvent "q.mp4" 1]).2 :=
  C8_per_file_failure_local 5 "/watch" [⟨"a.mp4", false⟩]
    [DirMsg.fileEvent "q.mp4" 1] "/watch/q.mp4"
    (fun _ => ⟨.ok (), .ok (), fun _ => true, [], 0⟩)
    (fun p => if p = "/watch/q.mp4" then ⟨.error "gone", .ok (), fun _ => true, [], 0⟩
      else ⟨.ok (), .ok (), fun _ => true, [], 0⟩)
    ⟨.error "gone", .ok (), fun _ => true, [], 0⟩ "gone"
    (fun p hp => by simp [hp])

/-! ### The unread `Errors` channels: helper lemmas -/

theorem startFull_eq :
    ∀ (ins : List DirInput),
      startFull ins =
        ((start (projectDir ins)).1, (start (projectDir ins)).2, dirErrors ins)
  | [] => rfl
  | .done :: rest => rfl
  | .fileEvent name op :: rest => by
    have hrec := startFull_eq rest
    simp [startFull, projectDir, start, dirErrors, hrec]
  | .errMsg e :: rest => by
    have hrec := startFull_eq rest
    simp [startFull, projectDir, dirErrors, hrec]

theorem trackerLoopFull_eq (threshold : Nat) (statOk : Nat → Bool) :
    ∀ (ins : List (Nat × TrackerInput)) (armTime : Nat),
      trackerLoopFull threshold statOk ins armTime =
        trackerLoop threshold statOk (projectTracker ins) armTime
  | [], armTime => rfl
  | (t, .errMsg e) :: rest, armTime => by
    have hrec := trackerLoopFull_eq threshold statOk rest armTime
    simpa [trackerLoopFull, projectTracker] using hrec
  | (t, .cancel) :: rest, armTime => by
    simp [trackerLoopFull, projectTracker, trackerLoop_cons]
  | (t, .notify op) :: rest, armTime => by
    have hrec := trackerLoopFull_eq threshold statOk rest t
    simp [trackerLoopFull, projectTracker, trackerLoop_cons, hrec]

/-- C10: neither `select` has a case for its fsnotify `Errors` channel, so
error deliveries are never consumed: with error deliveries inserted
anywhere into the input streams, the directory loop's spawns and close
count and every tracker's emissions are exactly those of the error-free
projection (no loop terminates, no event is suppressed or produced), and
the directory loop leaves every error delivery unconsumed. -/
theorem C10_errors_discarded :
    (∀ ins : List DirInput,
       startFull ins =
         ((start (projectDir ins)).1, (start (projectDir ins)).2, dirErrors ins)) ∧
    (∀ (threshold : Nat) (statOk : Nat → Bool)
       (ins : List (Nat × TrackerInput)) (armTime : Nat),
       trackerLoopFull threshold statOk ins armTime =
         trackerLoop threshold statOk (projectTracker ins) armTime) :=
  ⟨startFull_eq, fun threshold statOk ins armTime =>
    trackerLoopFull_eq threshold statOk ins armTime⟩

end StableFileWatcherSpec
